import Mathlib

/-!  Shallow embedding of the TTN broker connection registry
(core/broker/broker.go) and of the network server MAC state machine
(core/networkserver/uplink.go), with proofs of the registry lifecycle
invariants and of the uplink-handling contract.

Go channels are modelled by identifiers (Nat) allocated from a counter in
the broker state; a nil channel field is `none`.  Go maps are association
lists.  External collaborators (device store, MAC-command processing,
payload codec) are parameters of the model, as the spec treats them.  -/

namespace TTN

/-- Error taxonomy of utils/errors as used by the embedded code. -/
inductive ErrKind where
  | invalidArgument
  | notFound
  | internal
  | upstream
deriving Repr, DecidableEq

/-- An error value: its kind plus its message. -/
structure Err where
  kind : ErrKind
  msg : String
deriving Repr, DecidableEq

/-- errors.NewErrInternal -/
def newErrInternal (m : String) : Err := { kind := ErrKind.internal, msg := m }

/-- errors.NewErrInvalidArgument(subject, reason) -/
def newErrInvalidArgument (subject reason : String) : Err :=
  { kind := ErrKind.invalidArgument, msg := subject ++ " " ++ reason }

/-- errors.NewErrNotFound -/
def newErrNotFound (subject : String) : Err :=
  { kind := ErrKind.notFound, msg := subject ++ " not found" }

/-- Association-list model of a Go map: lookup the first binding of a key. -/
def alookup {κ α : Type} [DecidableEq κ] : List (κ × α) → κ → Option α
  | [], _ => none
  | (k, v) :: rest, k0 => if k = k0 then some v else alookup rest k0

/-- Association-list model of Go map assignment m[k] = v. -/
def aset {κ α : Type} [DecidableEq κ] : List (κ × α) → κ → α → List (κ × α)
  | [], k0, v0 => [(k0, v0)]
  | (k, v) :: rest, k0, v0 =>
      if k = k0 then (k0, v0) :: rest else (k, v) :: aset rest k0 v0

/-- broker.go: type router struct.  `downlink` is nil (`none`) or an
allocated channel identifier.  `downlinkConns` is a Go int. -/
structure RouterEntry where
  downlinkConns : Int
  downlink : Option Nat
deriving Repr, DecidableEq

/-- broker.go: type handler struct (conn is the cached grpc connection,
modelled as an opaque identifier). -/
structure HandlerEntry where
  conn : Option Nat
  uplinkConns : Int
  uplink : Option Nat
deriving Repr, DecidableEq

/-- The broker fields the registry claims touch: the two entry maps and a
fresh-channel allocator standing for `make(chan ...)`. -/
structure BrokerState where
  routers : List (String × RouterEntry)
  handlers : List (String × HandlerEntry)
  nextChan : Nat
deriving Repr, DecidableEq

/-- Go zero value new(router). -/
def emptyRouter : RouterEntry := { downlinkConns := 0, downlink := none }

/-- Go zero value new(handler). -/
def emptyHandler : HandlerEntry := { conn := none, uplinkConns := 0, uplink := none }

/-- broker.go NewBroker, restricted to the registry fields (the
deduplicators are outside the embedded fragment). -/
def NewBroker : BrokerState := { routers := [], handlers := [], nextChan := 0 }

/-- broker.go getRouter: look up the entry for id, lazily inserting a
zero-valued one when absent. -/
def getRouterS (s : BrokerState) (id : String) : RouterEntry × BrokerState :=
  match alookup s.routers id with
  | some existing => (existing, s)
  | none => (emptyRouter, { s with routers := aset s.routers id emptyRouter })

/-- broker.go getHandler. -/
def getHandlerS (s : BrokerState) (id : String) : HandlerEntry × BrokerState :=
  match alookup s.handlers id with
  | some existing => (existing, s)
  | none => (emptyHandler, { s with handlers := aset s.handlers id emptyHandler })

/-- broker.go ActivateRouterDownlink: create the channel if nil, increment
the consumer count, return the channel with a nil error. -/
def ActivateRouterDownlink (s : BrokerState) (id : String) :
    (Option Nat × Option Err) × BrokerState :=
  let p := getRouterS s id
  let rtr := p.1
  let s1 := p.2
  match rtr.downlink with
  | some c =>
      let rtr2 : RouterEntry := { rtr with downlinkConns := rtr.downlinkConns + 1 }
      ((some c, none), { s1 with routers := aset s1.routers id rtr2 })
  | none =>
      let c := s1.nextChan
      let rtr2 : RouterEntry := { downlinkConns := rtr.downlinkConns + 1, downlink := some c }
      ((some c, none),
        { s1 with routers := aset s1.routers id rtr2, nextChan := c + 1 })

/-- broker.go DeactivateRouterDownlink: error when the count is already
zero; otherwise decrement, and when the count reaches zero close and clear
the channel. -/
def DeactivateRouterDownlink (s : BrokerState) (id : String) :
    Option Err × BrokerState :=
  let p := getRouterS s id
  let rtr := p.1
  let s1 := p.2
  if rtr.downlinkConns = 0 then
    (some (newErrInternal ("Router " ++ id ++ " not active")), s1)
  else
    let rtr2 : RouterEntry := { rtr with downlinkConns := rtr.downlinkConns - 1 }
    if rtr2.downlinkConns = 0 then
      (none, { s1 with routers := aset s1.routers id { rtr2 with downlink := none } })
    else
      (none, { s1 with routers := aset s1.routers id rtr2 })

/-- broker.go getRouterDownlink: return the send end of the channel, or an
error when it is nil. -/
def getRouterDownlink (s : BrokerState) (id : String) :
    (Option Nat × Option Err) × BrokerState :=
  let p := getRouterS s id
  let rtr := p.1
  let s1 := p.2
  match rtr.downlink with
  | none => ((none, some (newErrInternal ("Router " ++ id ++ " not active"))), s1)
  | some c => ((some c, none), s1)

/-- broker.go ActivateHandlerUplink. -/
def ActivateHandlerUplink (s : BrokerState) (id : String) :
    (Option Nat × Option Err) × BrokerState :=
  let p := getHandlerS s id
  let hdl := p.1
  let s1 := p.2
  match hdl.uplink with
  | some c =>
      let hdl2 : HandlerEntry := { hdl with uplinkConns := hdl.uplinkConns + 1 }
      ((some c, none), { s1 with handlers := aset s1.handlers id hdl2 })
  | none =>
      let c := s1.nextChan
      let hdl2 : HandlerEntry :=
        { conn := hdl.conn, uplinkConns := hdl.uplinkConns + 1, uplink := some c }
      ((some c, none),
        { s1 with handlers := aset s1.handlers id hdl2, nextChan := c + 1 })

/-- broker.go DeactivateHandlerUplink. -/
def DeactivateHandlerUplink (s : BrokerState) (id : String) :
    Option Err × BrokerState :=
  let p := getHandlerS s id
  let hdl := p.1
  let s1 := p.2
  if hdl.uplinkConns = 0 then
    (some (newErrInternal ("Handler " ++ id ++ " not active")), s1)
  else
    let hdl2 : HandlerEntry := { hdl with uplinkConns := hdl.uplinkConns - 1 }
    if hdl2.uplinkConns = 0 then
      (none, { s1 with handlers := aset s1.handlers id { hdl2 with uplink := none } })
    else
      (none, { s1 with handlers := aset s1.handlers id hdl2 })

/-- broker.go getHandlerUplink. -/
def getHandlerUplink (s : BrokerState) (id : String) :
    (Option Nat × Option Err) × BrokerState :=
  let p := getHandlerS s id
  let hdl := p.1
  let s1 := p.2
  match hdl.uplink with
  | none => ((none, some (newErrInternal ("Handler " ++ id ++ " not active"))), s1)
  | some c => ((some c, none), s1)

/-- A single registry call (the four lifecycle entry points). -/
inductive BrokerOp where
  | activateRouter (id : String)
  | deactivateRouter (id : String)
  | activateHandler (id : String)
  | deactivateHandler (id : String)
deriving Repr, DecidableEq

/-- Apply one registry call, keeping only the state. -/
def runOp (s : BrokerState) (op : BrokerOp) : BrokerState :=
  match op with
  | BrokerOp.activateRouter id => (ActivateRouterDownlink s id).2
  | BrokerOp.deactivateRouter id => (DeactivateRouterDownlink s id).2
  | BrokerOp.activateHandler id => (ActivateHandlerUplink s id).2
  | BrokerOp.deactivateHandler id => (DeactivateHandlerUplink s id).2

/-- Apply a finite sequence of registry calls. -/
def runOps (s : BrokerState) : List BrokerOp → BrokerState
  | [] => s
  | op :: rest => runOps (runOp s op) rest

theorem alookup_aset_self {κ α : Type} [DecidableEq κ] (m : List (κ × α)) (k : κ) (v : α) :
    alookup (aset m k v) k = some v := by
  induction m with
  | nil => simp [aset, alookup]
  | cons hd tl ih =>
      obtain ⟨k0, v0⟩ := hd
      by_cases hk : k0 = k
      · subst hk; simp [aset, alookup]
      · simp [aset, alookup, hk, ih]

theorem alookup_aset_of_ne {κ α : Type} [DecidableEq κ] (m : List (κ × α)) (k j : κ) (v : α)
    (h : j ≠ k) : alookup (aset m k v) j = alookup m j := by
  induction m with
  | nil => simp [aset, alookup, Ne.symm h]
  | cons hd tl ih =>
      obtain ⟨k0, v0⟩ := hd
      by_cases hk : k0 = k
      · subst hk
        simp [aset, alookup, Ne.symm h]
      · by_cases hj : k0 = j
        · subst hj; simp [aset, alookup, hk]
        · simp [aset, alookup, hk, hj, ih]

theorem alookup_aset_cases {κ α : Type} [DecidableEq κ] (m : List (κ × α)) (k j : κ) (v w : α)
    (h : alookup (aset m k v) j = some w) : w = v ∨ alookup m j = some w := by
  by_cases hj : j = k
  · subst hj
    rw [alookup_aset_self] at h
    exact Or.inl (Option.some_inj.mp h).symm
  · rw [alookup_aset_of_ne m k j v hj] at h
    exact Or.inr h

theorem aset_aset {κ α : Type} [DecidableEq κ] (m : List (κ × α)) (k : κ) (v w : α) :
    aset (aset m k v) k w = aset m k w := by
  induction m with
  | nil => simp [aset]
  | cons hd tl ih =>
      obtain ⟨k0, v0⟩ := hd
      by_cases hk : k0 = k
      · subst hk; simp [aset]
      · simp [aset, hk, ih]

/-- The per-entry registry invariant on the router side: the consumer count
is non-negative and the channel exists exactly while it is positive. -/
def entryInvR (e : RouterEntry) : Prop :=
  0 ≤ e.downlinkConns ∧ (e.downlink.isSome = true ↔ 0 < e.downlinkConns)

/-- The per-entry registry invariant on the handler side. -/
def entryInvH (e : HandlerEntry) : Prop :=
  0 ≤ e.uplinkConns ∧ (e.uplink.isSome = true ↔ 0 < e.uplinkConns)

/-- Every entry of both registry maps satisfies its invariant. -/
def StateInv (s : BrokerState) : Prop :=
  (∀ id e, alookup s.routers id = some e → entryInvR e) ∧
  (∀ id e, alookup s.handlers id = some e → entryInvH e)

theorem mapInv_aset {κ α : Type} [DecidableEq κ] (P : α → Prop) (m : List (κ × α))
    (k : κ) (v : α) (hm : ∀ j w, alookup m j = some w → P w) (hv : P v) :
    ∀ j w, alookup (aset m k v) j = some w → P w := by
  intro j w h
  rcases alookup_aset_cases m k j v w h with h1 | h1
  · exact h1 ▸ hv
  · exact hm j w h1

theorem activateRouter_open (s : BrokerState) (id : String) (n : Int) (c : Nat)
    (h : alookup s.routers id = some ⟨n, some c⟩) :
    ActivateRouterDownlink s id =
      ((some c, none), { s with routers := aset s.routers id ⟨n + 1, some c⟩ }) := by
  simp [ActivateRouterDownlink, getRouterS, h]

theorem activateRouter_nilchan (s : BrokerState) (id : String) (n : Int)
    (h : alookup s.routers id = some ⟨n, none⟩) :
    ActivateRouterDownlink s id =
      ((some s.nextChan, none),
       { s with routers := aset s.routers id ⟨n + 1, some s.nextChan⟩,
                nextChan := s.nextChan + 1 }) := by
  simp [ActivateRouterDownlink, getRouterS, h]

theorem activateRouter_absent (s : BrokerState) (id : String)
    (h : alookup s.routers id = none) :
    ActivateRouterDownlink s id =
      ((some s.nextChan, none),
       { s with routers := aset s.routers id ⟨1, some s.nextChan⟩,
                nextChan := s.nextChan + 1 }) := by
  simp [ActivateRouterDownlink, getRouterS, h, emptyRouter, aset_aset]

theorem deactivateRouter_zero (s : BrokerState) (id : String) (c : Option Nat)
    (h : alookup s.routers id = some ⟨0, c⟩) :
    DeactivateRouterDownlink s id =
      (some (newErrInternal ("Router " ++ id ++ " not active")), s) := by
  simp [DeactivateRouterDownlink, getRouterS, h]

theorem deactivateRouter_absent (s : BrokerState) (id : String)
    (h : alookup s.routers id = none) :
    DeactivateRouterDownlink s id =
      (some (newErrInternal ("Router " ++ id ++ " not active")),
       { s with routers := aset s.routers id emptyRouter }) := by
  simp [DeactivateRouterDownlink, getRouterS, h, emptyRouter]

theorem deactivateRouter_last (s : BrokerState) (id : String) (c : Option Nat)
    (h : alookup s.routers id = some ⟨1, c⟩) :
    DeactivateRouterDownlink s id =
      (none, { s with routers := aset s.routers id ⟨0, none⟩ }) := by
  norm_num [DeactivateRouterDownlink, getRouterS, h]

theorem deactivateRouter_dec (s : BrokerState) (id : String) (n : Int) (c : Option Nat)
    (hn : n ≠ 0) (hn1 : n - 1 ≠ 0)
    (h : alookup s.routers id = some ⟨n, c⟩) :
    DeactivateRouterDownlink s id =
      (none, { s with routers := aset s.routers id ⟨n - 1, c⟩ }) := by
  simp [DeactivateRouterDownlink, getRouterS, h, hn, hn1]

theorem getRouterDownlink_open (s : BrokerState) (id : String) (n : Int) (c : Nat)
    (h : alookup s.routers id = some ⟨n, some c⟩) :
    getRouterDownlink s id = ((some c, none), s) := by
  simp [getRouterDownlink, getRouterS, h]

theorem getRouterDownlink_nilchan (s : BrokerState) (id : String) (n : Int)
    (h : alookup s.routers id = some ⟨n, none⟩) :
    getRouterDownlink s id =
      ((none, some (newErrInternal ("Router " ++ id ++ " not active"))), s) := by
  simp [getRouterDownlink, getRouterS, h]

theorem getRouterDownlink_absent (s : BrokerState) (id : String)
    (h : alookup s.routers id = none) :
    getRouterDownlink s id =
      ((none, some (newErrInternal ("Router " ++ id ++ " not active"))),
       { s with routers := aset s.routers id emptyRouter }) := by
  simp [getRouterDownlink, getRouterS, h, emptyRouter]

theorem activateHandler_open (s : BrokerState) (id : String) (cn : Option Nat) (n : Int) (c : Nat)
    (h : alookup s.handlers id = some ⟨cn, n, some c⟩) :
    ActivateHandlerUplink s id =
      ((some c, none), { s with handlers := aset s.handlers id ⟨cn, n + 1, some c⟩ }) := by
  simp [ActivateHandlerUplink, getHandlerS, h]

theorem activateHandler_nilchan (s : BrokerState) (id : String) (cn : Option Nat) (n : Int)
    (h : alookup s.handlers id = some ⟨cn, n, none⟩) :
    ActivateHandlerUplink s id =
      ((some s.nextChan, none),
       { s with handlers := aset s.handlers id ⟨cn, n + 1, some s.nextChan⟩,
                nextChan := s.nextChan + 1 }) := by
  simp [ActivateHandlerUplink, getHandlerS, h]

theorem activateHandler_absent (s : BrokerState) (id : String)
    (h : alookup s.handlers id = none) :
    ActivateHandlerUplink s id =
      ((some s.nextChan, none),
       { s with handlers := aset s.handlers id ⟨none, 1, some s.nextChan⟩,
                nextChan := s.nextChan + 1 }) := by
  simp [ActivateHandlerUplink, getHandlerS, h, emptyHandler, aset_aset]

theorem deactivateHandler_zero (s : BrokerState) (id : String) (cn : Option Nat) (c : Option Nat)
    (h : alookup s.handlers id = some ⟨cn, 0, c⟩) :
    DeactivateHandlerUplink s id =
      (some (newErrInternal ("Handler " ++ id ++ " not active")), s) := by
  simp [DeactivateHandlerUplink, getHandlerS, h]

theorem deactivateHandler_absent (s : BrokerState) (id : String)
    (h : alookup s.handlers id = none) :
    DeactivateHandlerUplink s id =
      (some (newErrInternal ("Handler " ++ id ++ " not active")),
       { s with handlers := aset s.handlers id emptyHandler }) := by
  simp [DeactivateHandlerUplink, getHandlerS, h, emptyHandler]

theorem deactivateHandler_last (s : BrokerState) (id : String) (cn : Option Nat) (c : Option Nat)
    (h : alookup s.handlers id = some ⟨cn, 1, c⟩) :
    DeactivateHandlerUplink s id =
      (none, { s with handlers := aset s.handlers id ⟨cn, 0, none⟩ }) := by
  norm_num [DeactivateHandlerUplink, getHandlerS, h]

theorem deactivateHandler_dec (s : BrokerState) (id : String) (cn : Option Nat) (n : Int)
    (c : Option Nat) (hn : n ≠ 0) (hn1 : n - 1 ≠ 0)
    (h : alookup s.handlers id = some ⟨cn, n, c⟩) :
    DeactivateHandlerUplink s id =
      (none, { s with handlers := aset s.handlers id ⟨cn, n - 1, c⟩ }) := by
  simp [DeactivateHandlerUplink, getHandlerS, h, hn, hn1]

theorem getHandlerUplink_open (s : BrokerState) (id : String) (cn : Option Nat) (n : Int) (c : Nat)
    (h : alookup s.handlers id = some ⟨cn, n, some c⟩) :
    getHandlerUplink s id = ((some c, none), s) := by
  simp [getHandlerUplink, getHandlerS, h]

theorem getHandlerUplink_nilchan (s : BrokerState) (id : String) (cn : Option Nat) (n : Int)
    (h : alookup s.handlers id = some ⟨cn, n, none⟩) :
    getHandlerUplink s id =
      ((none, some (newErrInternal ("Handler " ++ id ++ " not active"))), s) := by
  simp [getHandlerUplink, getHandlerS, h]

theorem getHandlerUplink_absent (s : BrokerState) (id : String)
    (h : alookup s.handlers id = none) :
    getHandlerUplink s id =
      ((none, some (newErrInternal ("Handler " ++ id ++ " not active"))),
       { s with handlers := aset s.handlers id emptyHandler }) := by
  simp [getHandlerUplink, getHandlerS, h, emptyHandler]

theorem entryInvR_of (n : Int) (c : Option Nat) (h1 : 0 ≤ n)
    (h2 : c.isSome = true ↔ 0 < n) : entryInvR ⟨n, c⟩ := ⟨h1, h2⟩

theorem entryInvH_of (cn : Option Nat) (n : Int) (c : Option Nat) (h1 : 0 ≤ n)
    (h2 : c.isSome = true ↔ 0 < n) : entryInvH ⟨cn, n, c⟩ := ⟨h1, h2⟩

theorem stateInv_runOp (s : BrokerState) (op : BrokerOp) (h : StateInv s) :
    StateInv (runOp s op) := by
  obtain ⟨hr, hh⟩ := h
  cases op with
  | activateRouter id =>
      rcases he : alookup s.routers id with _ | ⟨n, c⟩
      · rw [runOp, activateRouter_absent s id he]
        exact ⟨mapInv_aset _ _ _ _ hr (entryInvR_of 1 (some s.nextChan) (by omega) (by simp)), hh⟩
      · have hn0 : (0 : Int) ≤ n := (hr id _ he).1
        have hiff : c.isSome = true ↔ 0 < n := (hr id _ he).2
        rcases c with _ | ch
        · rw [runOp, activateRouter_nilchan s id n he]
          exact ⟨mapInv_aset _ _ _ _ hr (entryInvR_of (n + 1) (some s.nextChan) (by omega) (by simp; omega)), hh⟩
        · rw [runOp, activateRouter_open s id n ch he]
          exact ⟨mapInv_aset _ _ _ _ hr (entryInvR_of (n + 1) (some ch) (by omega) (by simp; omega)), hh⟩
  | deactivateRouter id =>
      rcases he : alookup s.routers id with _ | ⟨n, c⟩
      · rw [runOp, deactivateRouter_absent s id he]
        exact ⟨mapInv_aset _ _ _ _ hr (entryInvR_of 0 none (by omega) (by simp)), hh⟩
      · have hn0 : (0 : Int) ≤ n := (hr id _ he).1
        have hiff : c.isSome = true ↔ 0 < n := (hr id _ he).2
        by_cases hn : n = 0
        · subst hn
          rw [runOp, deactivateRouter_zero s id c he]
          exact ⟨hr, hh⟩
        · by_cases hn1 : n - 1 = 0
          · have hone : n = 1 := by omega
            subst hone
            rw [runOp, deactivateRouter_last s id c he]
            exact ⟨mapInv_aset _ _ _ _ hr (entryInvR_of 0 none (by omega) (by simp)), hh⟩
          · rw [runOp, deactivateRouter_dec s id n c hn hn1 he]
            have hct : c.isSome = true := hiff.mpr (by omega)
            exact ⟨mapInv_aset _ _ _ _ hr (entryInvR_of (n - 1) c (by omega) (by rw [hct]; simp only [true_iff]; omega)), hh⟩
  | activateHandler id =>
      rcases he : alookup s.handlers id with _ | ⟨cn, n, c⟩
      · rw [runOp, activateHandler_absent s id he]
        exact ⟨hr, mapInv_aset _ _ _ _ hh (entryInvH_of none 1 (some s.nextChan) (by omega) (by simp))⟩
      · have hn0 : (0 : Int) ≤ n := (hh id _ he).1
        have hiff : c.isSome = true ↔ 0 < n := (hh id _ he).2
        rcases c with _ | ch
        · rw [runOp, activateHandler_nilchan s id cn n he]
          exact ⟨hr, mapInv_aset _ _ _ _ hh (entryInvH_of cn (n + 1) (some s.nextChan) (by omega) (by simp; omega))⟩
        · rw [runOp, activateHandler_open s id cn n ch he]
          exact ⟨hr, mapInv_aset _ _ _ _ hh (entryInvH_of cn (n + 1) (some ch) (by omega) (by simp; omega))⟩
  | deactivateHandler id =>
      rcases he : alookup s.handlers id with _ | ⟨cn, n, c⟩
      · rw [runOp, deactivateHandler_absent s id he]
        exact ⟨hr, mapInv_aset _ _ _ _ hh (entryInvH_of none 0 none (by omega) (by simp))⟩
      · have hn0 : (0 : Int) ≤ n := (hh id _ he).1
        have hiff : c.isSome = true ↔ 0 < n := (hh id _ he).2
        by_cases hn : n = 0
        · subst hn
          rw [runOp, deactivateHandler_zero s id cn c he]
          exact ⟨hr, hh⟩
        · by_cases hn1 : n - 1 = 0
          · have hone : n = 1 := by omega
            subst hone
            rw [runOp, deactivateHandler_last s id cn c he]
            exact ⟨hr, mapInv_aset _ _ _ _ hh (entryInvH_of cn 0 none (by omega) (by simp))⟩
          · rw [runOp, deactivateHandler_dec s id cn n c hn hn1 he]
            have hct : c.isSome = true := hiff.mpr (by omega)
            exact ⟨hr, mapInv_aset _ _ _ _ hh (entryInvH_of cn (n - 1) c (by omega) (by rw [hct]; simp only [true_iff]; omega))⟩

theorem stateInv_newBroker : StateInv NewBroker := by
  constructor
  · intro id e h
    simp [NewBroker, alookup] at h
  · intro id e h
    simp [NewBroker, alookup] at h

theorem stateInv_runOps (s : BrokerState) (ops : List BrokerOp) (h : StateInv s) :
    StateInv (runOps s ops) := by
  induction ops generalizing s with
  | nil => exact h
  | cons op rest ih => exact ih (runOp s op) (stateInv_runOp s op h)

/-- C1: after any finite sequence of ActivateRouterDownlink, DeactivateRouterDownlink,
ActivateHandlerUplink and DeactivateHandlerUplink calls on a fresh broker, every
router entry has a non-nil downlink channel exactly when its downlinkConns count is
positive, and every handler entry has a non-nil uplink channel exactly when its
uplinkConns count is positive. -/
theorem registry_channel_iff_positive_conns (ops : List BrokerOp) (id : String) :
    (∀ e, alookup (runOps NewBroker ops).routers id = some e →
        (e.downlink.isSome = true ↔ 0 < e.downlinkConns)) ∧
    (∀ e, alookup (runOps NewBroker ops).handlers id = some e →
        (e.uplink.isSome = true ↔ 0 < e.uplinkConns)) := by
  have h := stateInv_runOps NewBroker ops stateInv_newBroker
  exact ⟨fun e he => (h.1 id e he).2, fun e he => (h.2 id e he).2⟩

/-- C1 witness: one ActivateRouterDownlink call on a fresh broker yields the entry
with one consumer and an open channel, which satisfies the invariant. -/
theorem registry_channel_iff_positive_conns_witness :
    (RouterEntry.mk 1 (some 0)).downlink.isSome = true ↔
      0 < (RouterEntry.mk 1 (some 0)).downlinkConns :=
  (registry_channel_iff_positive_conns [BrokerOp.activateRouter "router-1"] "router-1").1
    ⟨1, some 0⟩ (by decide)

/-- The conceptual registry entry of an id on the router side: the stored entry,
or the zero entry for an id the map has never seen (exactly what getRouter
would lazily insert). -/
def routerEntryOf (s : BrokerState) (id : String) : RouterEntry :=
  (alookup s.routers id).getD emptyRouter

/-- The conceptual registry entry of an id on the handler side. -/
def handlerEntryOf (s : BrokerState) (id : String) : HandlerEntry :=
  (alookup s.handlers id).getD emptyHandler

/-- C10: ActivateRouterDownlink and ActivateHandlerUplink never fail: for every
id and every prior registry state they return a non-nil channel together with a
nil error. -/
theorem activate_never_fails (s : BrokerState) (id : String) :
    ((ActivateRouterDownlink s id).1.1.isSome = true ∧
     (ActivateRouterDownlink s id).1.2 = none) ∧
    ((ActivateHandlerUplink s id).1.1.isSome = true ∧
     (ActivateHandlerUplink s id).1.2 = none) := by
  constructor
  · rcases he : alookup s.routers id with _ | ⟨n, c⟩
    · rw [activateRouter_absent s id he]
      simp
    · rcases c with _ | ch
      · rw [activateRouter_nilchan s id n he]
        simp
      · rw [activateRouter_open s id n ch he]
        simp
  · rcases he : alookup s.handlers id with _ | ⟨cn, n, c⟩
    · rw [activateHandler_absent s id he]
      simp
    · rcases c with _ | ch
      · rw [activateHandler_nilchan s id cn n he]
        simp
      · rw [activateHandler_open s id cn n ch he]
        simp

/-- C8: Deactivate on an id whose consumer count is zero (including a
never-activated id) returns the Internal "not active" error and leaves the
entry untouched: the count is not decremented and the channel is unchanged. -/
theorem deactivate_inactive_is_error (s : BrokerState) (id : String) :
    ((routerEntryOf s id).downlinkConns = 0 →
      (DeactivateRouterDownlink s id).1 =
        some (newErrInternal ("Router " ++ id ++ " not active")) ∧
      routerEntryOf (DeactivateRouterDownlink s id).2 id = routerEntryOf s id) ∧
    ((handlerEntryOf s id).uplinkConns = 0 →
      (DeactivateHandlerUplink s id).1 =
        some (newErrInternal ("Handler " ++ id ++ " not active")) ∧
      handlerEntryOf (DeactivateHandlerUplink s id).2 id = handlerEntryOf s id) := by
  constructor
  · intro hz
    rcases he : alookup s.routers id with _ | ⟨n, c⟩
    · rw [deactivateRouter_absent s id he]
      refine ⟨rfl, ?_⟩
      simp [routerEntryOf, he, alookup_aset_self]
    · have hn : n = 0 := by simpa [routerEntryOf, he] using hz
      subst hn
      rw [deactivateRouter_zero s id c he]
      exact ⟨rfl, rfl⟩
  · intro hz
    rcases he : alookup s.handlers id with _ | ⟨cn, n, c⟩
    · rw [deactivateHandler_absent s id he]
      refine ⟨rfl, ?_⟩
      simp [handlerEntryOf, he, alookup_aset_self]
    · have hn : n = 0 := by simpa [handlerEntryOf, he] using hz
      subst hn
      rw [deactivateHandler_zero s id cn c he]
      exact ⟨rfl, rfl⟩

/-- C8 witness: deactivating the never-activated id router-1 on a fresh broker
errors and leaves the conceptual entry unchanged. -/
theorem deactivate_inactive_is_error_witness :
    (DeactivateRouterDownlink NewBroker "router-1").1 =
      some (newErrInternal ("Router " ++ "router-1" ++ " not active")) ∧
    routerEntryOf (DeactivateRouterDownlink NewBroker "router-1").2 "router-1" =
      routerEntryOf NewBroker "router-1" :=
  (deactivate_inactive_is_error NewBroker "router-1").1 (by decide)

/-- C9 counterexample: on a fresh broker the delivery-end lookup for the
inactive id router-1 fails with an Internal "not active" error, whose kind is
not NotFound as the claim states. -/
theorem lookup_inactive_error_kind_counterexample :
    (getRouterDownlink NewBroker "router-1").1.2 =
      some { kind := ErrKind.internal, msg := "Router router-1 not active" } ∧
    ErrKind.internal ≠ ErrKind.notFound := by
  decide

/-- C9 amended: for every id with no active consumer (nil channel), the
delivery-end lookups getRouterDownlink and getHandlerUplink fail, returning no
channel and an Internal error whose message says the entity is not active. -/
theorem lookup_inactive_fails (s : BrokerState) (id : String) :
    ((routerEntryOf s id).downlink = none →
      (getRouterDownlink s id).1 =
        (none, some (newErrInternal ("Router " ++ id ++ " not active")))) ∧
    ((handlerEntryOf s id).uplink = none →
      (getHandlerUplink s id).1 =
        (none, some (newErrInternal ("Handler " ++ id ++ " not active")))) := by
  constructor
  · intro hz
    rcases he : alookup s.routers id with _ | ⟨n, c⟩
    · rw [getRouterDownlink_absent s id he]
    · have hc : c = none := by simpa [routerEntryOf, he] using hz
      subst hc
      rw [getRouterDownlink_nilchan s id n he]
  · intro hz
    rcases he : alookup s.handlers id with _ | ⟨cn, n, c⟩
    · rw [getHandlerUplink_absent s id he]
    · have hc : c = none := by simpa [handlerEntryOf, he] using hz
      subst hc
      rw [getHandlerUplink_nilchan s id cn n he]

/-- C9 amended witness: the lookup failure on a fresh broker. -/
theorem lookup_inactive_fails_witness :
    (getRouterDownlink NewBroker "router-1").1 =
      (none, some (newErrInternal ("Router " ++ "router-1" ++ " not active"))) :=
  (lookup_inactive_fails NewBroker "router-1").1 (by decide)

/-- C6 counterexample: on a fresh broker, the delivery-end lookup of the
never-seen id router-1 changes the routers map (it inserts an entry), so the
maps are not always unchanged by the call. -/
theorem lookup_creates_entry_counterexample :
    (getRouterDownlink NewBroker "router-1").2.routers ≠ NewBroker.routers := by
  decide

/-- C6 amended: a delivery-end lookup (getRouterDownlink, getHandlerUplink or
the underlying getRouter/getHandler) never creates a channel and never changes
any existing entry: when the id is present the state is returned unchanged, and
when it is absent the only effect is inserting the zero entry with count 0 and
a nil channel. -/
theorem lookup_effect_on_maps (s : BrokerState) (id : String) :
    (getRouterDownlink s id).2 =
      (match alookup s.routers id with
       | some _ => s
       | none => { s with routers := aset s.routers id emptyRouter }) ∧
    (getHandlerUplink s id).2 =
      (match alookup s.handlers id with
       | some _ => s
       | none => { s with handlers := aset s.handlers id emptyHandler }) ∧
    (getRouterS s id).2 =
      (match alookup s.routers id with
       | some _ => s
       | none => { s with routers := aset s.routers id emptyRouter }) ∧
    (getHandlerS s id).2 =
      (match alookup s.handlers id with
       | some _ => s
       | none => { s with handlers := aset s.handlers id emptyHandler }) := by
  refine ⟨?_, ?_, ?_, ?_⟩
  · rcases he : alookup s.routers id with _ | ⟨n, c⟩
    · rw [getRouterDownlink_absent s id he]
    · rcases c with _ | ch
      · rw [getRouterDownlink_nilchan s id n he]
      · rw [getRouterDownlink_open s id n ch he]
  · rcases he : alookup s.handlers id with _ | ⟨cn, n, c⟩
    · rw [getHandlerUplink_absent s id he]
    · rcases c with _ | ch
      · rw [getHandlerUplink_nilchan s id cn n he]
      · rw [getHandlerUplink_open s id cn n ch he]
  · simp [getRouterS]
    rcases he : alookup s.routers id with _ | e <;> rfl
  · simp [getHandlerS]
    rcases he : alookup s.handlers id with _ | e <;> rfl

/-- k successive ActivateRouterDownlink calls for one id (states only). -/
def activateRouterK (s : BrokerState) (id : String) : Nat → BrokerState
  | 0 => s
  | k + 1 => activateRouterK (ActivateRouterDownlink s id).2 id k

/-- k successive DeactivateRouterDownlink calls for one id (states only). -/
def deactivateRouterK (s : BrokerState) (id : String) : Nat → BrokerState
  | 0 => s
  | k + 1 => deactivateRouterK (DeactivateRouterDownlink s id).2 id k

/-- k successive ActivateHandlerUplink calls for one id (states only). -/
def activateHandlerK (s : BrokerState) (id : String) : Nat → BrokerState
  | 0 => s
  | k + 1 => activateHandlerK (ActivateHandlerUplink s id).2 id k

/-- k successive DeactivateHandlerUplink calls for one id (states only). -/
def deactivateHandlerK (s : BrokerState) (id : String) : Nat → BrokerState
  | 0 => s
  | k + 1 => deactivateHandlerK (DeactivateHandlerUplink s id).2 id k

theorem activateRouterK_open (id : String) (j : Nat) :
    ∀ (s : BrokerState) (n : Int) (c : Nat),
      alookup s.routers id = some ⟨n, some c⟩ →
      alookup (activateRouterK s id j).routers id = some ⟨n + j, some c⟩ ∧
      (activateRouterK s id j).nextChan = s.nextChan := by
  induction j with
  | zero =>
      intro s n c h
      constructor
      · simpa [activateRouterK] using h
      · rfl
  | succ j ih =>
      intro s n c h
      have ha := activateRouter_open s id n c h
      have hset : alookup (aset s.routers id (RouterEntry.mk (n + 1) (some c))) id
          = some ⟨n + 1, some c⟩ := alookup_aset_self _ _ _
      have step := ih { s with routers := aset s.routers id ⟨n + 1, some c⟩ } (n + 1) c hset
      constructor
      · rw [activateRouterK, ha]
        rw [show (n + ((j + 1 : Nat) : Int)) = (n + 1) + (j : Int) by push_cast; ring]
        exact step.1
      · rw [activateRouterK, ha]
        exact step.2

theorem deactivateRouterK_dec (id : String) (j : Nat) :
    ∀ (s : BrokerState) (n : Int) (c : Nat),
      alookup s.routers id = some ⟨n, some c⟩ → (j : Int) + 1 ≤ n →
      alookup (deactivateRouterK s id j).routers id = some ⟨n - j, some c⟩ ∧
      (deactivateRouterK s id j).nextChan = s.nextChan := by
  induction j with
  | zero =>
      intro s n c h _
      constructor
      · simpa [deactivateRouterK] using h
      · rfl
  | succ j ih =>
      intro s n c h hj
      have hn : n ≠ 0 := by omega
      have hn1 : n - 1 ≠ 0 := by
        push_cast at hj
        omega
      have ha := deactivateRouter_dec s id n (some c) hn hn1 h
      have hset : alookup (aset s.routers id (RouterEntry.mk (n - 1) (some c))) id
          = some ⟨n - 1, some c⟩ := alookup_aset_self _ _ _
      have step := ih { s with routers := aset s.routers id ⟨n - 1, some c⟩ } (n - 1) c hset
        (by push_cast at hj ⊢; omega)
      constructor
      · rw [deactivateRouterK, ha]
        rw [show (n - ((j + 1 : Nat) : Int)) = (n - 1) - (j : Int) by push_cast; ring]
        exact step.1
      · rw [deactivateRouterK, ha]
        exact step.2

theorem activateHandlerK_open (id : String) (j : Nat) :
    ∀ (s : BrokerState) (cn : Option Nat) (n : Int) (c : Nat),
      alookup s.handlers id = some ⟨cn, n, some c⟩ →
      alookup (activateHandlerK s id j).handlers id = some ⟨cn, n + j, some c⟩ ∧
      (activateHandlerK s id j).nextChan = s.nextChan := by
  induction j with
  | zero =>
      intro s cn n c h
      constructor
      · simpa [activateHandlerK] using h
      · rfl
  | succ j ih =>
      intro s cn n c h
      have ha := activateHandler_open s id cn n c h
      have hset : alookup (aset s.handlers id (HandlerEntry.mk cn (n + 1) (some c))) id
          = some ⟨cn, n + 1, some c⟩ := alookup_aset_self _ _ _
      have step := ih { s with handlers := aset s.handlers id ⟨cn, n + 1, some c⟩ } cn (n + 1) c hset
      constructor
      · rw [activateHandlerK, ha]
        rw [show (n + ((j + 1 : Nat) : Int)) = (n + 1) + (j : Int) by push_cast; ring]
        exact step.1
      · rw [activateHandlerK, ha]
        exact step.2

theorem deactivateHandlerK_dec (id : String) (j : Nat) :
    ∀ (s : BrokerState) (cn : Option Nat) (n : Int) (c : Nat),
      alookup s.handlers id = some ⟨cn, n, some c⟩ → (j : Int) + 1 ≤ n →
      alookup (deactivateHandlerK s id j).handlers id = some ⟨cn, n - j, some c⟩ ∧
      (deactivateHandlerK s id j).nextChan = s.nextChan := by
  induction j with
  | zero =>
      intro s cn n c h _
      constructor
      · simpa [deactivateHandlerK] using h
      · rfl
  | succ j ih =>
      intro s cn n c h hj
      have hn : n ≠ 0 := by omega
      have hn1 : n - 1 ≠ 0 := by
        push_cast at hj
        omega
      have ha := deactivateHandler_dec s id cn n (some c) hn hn1 h
      have hset : alookup (aset s.handlers id (HandlerEntry.mk cn (n - 1) (some c))) id
          = some ⟨cn, n - 1, some c⟩ := alookup_aset_self _ _ _
      have step := ih { s with handlers := aset s.handlers id ⟨cn, n - 1, some c⟩ } cn (n - 1) c hset
        (by push_cast at hj ⊢; omega)
      constructor
      · rw [deactivateHandlerK, ha]
        rw [show (n - ((j + 1 : Nat) : Int)) = (n - 1) - (j : Int) by push_cast; ring]
        exact step.1
      · rw [deactivateHandlerK, ha]
        exact step.2

theorem activateRouterK_from_inactive (s : BrokerState) (id : String) (k : Nat) (hk : 1 ≤ k)
    (h0 : alookup s.routers id = none ∨ alookup s.routers id = some emptyRouter) :
    alookup (activateRouterK s id k).routers id = some ⟨(k : Int), some s.nextChan⟩ ∧
    (activateRouterK s id k).nextChan = s.nextChan + 1 := by
  obtain ⟨j, rfl⟩ : ∃ j, k = j + 1 := ⟨k - 1, by omega⟩
  have hstep : alookup ((ActivateRouterDownlink s id).2).routers id
        = some ⟨1, some s.nextChan⟩ ∧
      ((ActivateRouterDownlink s id).2).nextChan = s.nextChan + 1 := by
    rcases h0 with h | h
    · rw [activateRouter_absent s id h]
      exact ⟨alookup_aset_self _ _ _, rfl⟩
    · have h2 : alookup s.routers id = some ⟨0, none⟩ := h
      rw [activateRouter_nilchan s id 0 h2]
      constructor
      · rw [show ((0 : Int) + 1) = 1 by ring]
        exact alookup_aset_self _ _ _
      · rfl
  obtain ⟨h1, h2⟩ := hstep
  obtain ⟨h3, h4⟩ := activateRouterK_open id j _ 1 s.nextChan h1
  constructor
  · rw [activateRouterK, show (((j + 1 : Nat)) : Int) = 1 + (j : Int) by push_cast; ring]
    exact h3
  · rw [activateRouterK, h4, h2]

theorem activateHandlerK_from_inactive (s : BrokerState) (id : String) (cn : Option Nat)
    (k : Nat) (hk : 1 ≤ k)
    (h0 : alookup s.handlers id = none ∨ alookup s.handlers id = some ⟨cn, 0, none⟩) :
    (alookup (activateHandlerK s id k).handlers id = some ⟨cn, (k : Int), some s.nextChan⟩ ∨
     alookup (activateHandlerK s id k).handlers id = some ⟨none, (k : Int), some s.nextChan⟩) ∧
    (activateHandlerK s id k).nextChan = s.nextChan + 1 := by
  obtain ⟨j, rfl⟩ : ∃ j, k = j + 1 := ⟨k - 1, by omega⟩
  rcases h0 with h | h
  · have hstep := activateHandler_absent s id h
    have h1 : alookup ((ActivateHandlerUplink s id).2).handlers id
        = some ⟨none, 1, some s.nextChan⟩ := by
      rw [hstep]
      exact alookup_aset_self _ _ _
    obtain ⟨h3, h4⟩ := activateHandlerK_open id j _ none 1 s.nextChan h1
    refine ⟨Or.inr ?_, ?_⟩
    · rw [activateHandlerK, show (((j + 1 : Nat)) : Int) = 1 + (j : Int) by push_cast; ring]
      exact h3
    · rw [activateHandlerK, h4, hstep]
  · have hstep := activateHandler_nilchan s id cn 0 h
    have h1 : alookup ((ActivateHandlerUplink s id).2).handlers id
        = some ⟨cn, 1, some s.nextChan⟩ := by
      rw [hstep, show ((0 : Int) + 1) = 1 by ring]
      exact alookup_aset_self _ _ _
    obtain ⟨h3, h4⟩ := activateHandlerK_open id j _ cn 1 s.nextChan h1
    refine ⟨Or.inl ?_, ?_⟩
    · rw [activateHandlerK, show (((j + 1 : Nat)) : Int) = 1 + (j : Int) by push_cast; ring]
      exact h3
    · rw [activateHandlerK, h4, hstep]

/-- C7: for every id that is inactive in the start state and every k ≥ 1:
k activations followed by k-1 deactivations leave the entry's channel non-nil
with one remaining consumer and the delivery-end lookup succeeding; the k-th
deactivation succeeds and clears the channel; and a subsequent activation
returns a fresh channel distinct from the closed one.  Stated for the router
side (ActivateRouterDownlink / DeactivateRouterDownlink / getRouterDownlink)
and for the handler side (ActivateHandlerUplink / DeactivateHandlerUplink /
getHandlerUplink). -/
theorem refcount_lifecycle (s : BrokerState) (id : String) (k : Nat) (cn : Option Nat)
    (hk : 1 ≤ k)
    (hr0 : alookup s.routers id = none ∨ alookup s.routers id = some emptyRouter)
    (hh0 : alookup s.handlers id = none ∨ alookup s.handlers id = some ⟨cn, 0, none⟩) :
    (alookup (deactivateRouterK (activateRouterK s id k) id (k - 1)).routers id
        = some ⟨1, some s.nextChan⟩ ∧
     (getRouterDownlink (deactivateRouterK (activateRouterK s id k) id (k - 1)) id).1
        = (some s.nextChan, none) ∧
     (DeactivateRouterDownlink (deactivateRouterK (activateRouterK s id k) id (k - 1)) id).1
        = none ∧
     alookup ((DeactivateRouterDownlink
         (deactivateRouterK (activateRouterK s id k) id (k - 1)) id).2).routers id
        = some ⟨0, none⟩ ∧
     (ActivateRouterDownlink ((DeactivateRouterDownlink
         (deactivateRouterK (activateRouterK s id k) id (k - 1)) id).2) id).1.1
        = some (s.nextChan + 1) ∧
     s.nextChan + 1 ≠ s.nextChan) ∧
    ((handlerEntryOf (deactivateHandlerK (activateHandlerK s id k) id (k - 1)) id).uplink
        = some s.nextChan ∧
     (handlerEntryOf (deactivateHandlerK (activateHandlerK s id k) id (k - 1)) id).uplinkConns
        = 1 ∧
     (getHandlerUplink (deactivateHandlerK (activateHandlerK s id k) id (k - 1)) id).1
        = (some s.nextChan, none) ∧
     (DeactivateHandlerUplink (deactivateHandlerK (activateHandlerK s id k) id (k - 1)) id).1
        = none ∧
     (handlerEntryOf ((DeactivateHandlerUplink
         (deactivateHandlerK (activateHandlerK s id k) id (k - 1)) id).2) id).uplink
        = none ∧
     (ActivateHandlerUplink ((DeactivateHandlerUplink
         (deactivateHandlerK (activateHandlerK s id k) id (k - 1)) id).2) id).1.1
        = some (s.nextChan + 1)) := by
  constructor
  · obtain ⟨hA, hN⟩ := activateRouterK_from_inactive s id k hk hr0
    obtain ⟨hD, hN2⟩ := deactivateRouterK_dec id (k - 1) _ (k : Int) s.nextChan hA (by omega)
    have hone : ((k : Int) - ((k - 1 : Nat) : Int)) = 1 := by omega
    rw [hone] at hD
    have hDe := deactivateRouter_last _ id (some s.nextChan) hD
    have hl3 : alookup ((DeactivateRouterDownlink
        (deactivateRouterK (activateRouterK s id k) id (k - 1)) id).2).routers id
        = some ⟨0, none⟩ := by
      rw [hDe]
      exact alookup_aset_self _ _ _
    have hchan : ((DeactivateRouterDownlink
        (deactivateRouterK (activateRouterK s id k) id (k - 1)) id).2).nextChan
        = s.nextChan + 1 := by
      rw [hDe]
      show (deactivateRouterK (activateRouterK s id k) id (k - 1)).nextChan = s.nextChan + 1
      rw [hN2, hN]
    refine ⟨hD, ?_, ?_, hl3, ?_, by omega⟩
    · rw [getRouterDownlink_open _ id 1 s.nextChan hD]
    · rw [hDe]
    · rw [activateRouter_nilchan _ id 0 hl3, hchan]
  · obtain ⟨hAor, hN⟩ := activateHandlerK_from_inactive s id cn k hk hh0
    obtain ⟨cn2, hA⟩ : ∃ cn2, alookup (activateHandlerK s id k).handlers id
        = some ⟨cn2, (k : Int), some s.nextChan⟩ := by
      rcases hAor with h | h
      · exact ⟨cn, h⟩
      · exact ⟨none, h⟩
    obtain ⟨hD, hN2⟩ := deactivateHandlerK_dec id (k - 1) _ cn2 (k : Int) s.nextChan hA (by omega)
    have hone : ((k : Int) - ((k - 1 : Nat) : Int)) = 1 := by omega
    rw [hone] at hD
    have hDe := deactivateHandler_last _ id cn2 (some s.nextChan) hD
    have hl3 : alookup ((DeactivateHandlerUplink
        (deactivateHandlerK (activateHandlerK s id k) id (k - 1)) id).2).handlers id
        = some ⟨cn2, 0, none⟩ := by
      rw [hDe]
      exact alookup_aset_self _ _ _
    have hchan : ((DeactivateHandlerUplink
        (deactivateHandlerK (activateHandlerK s id k) id (k - 1)) id).2).nextChan
        = s.nextChan + 1 := by
      rw [hDe]
      show (deactivateHandlerK (activateHandlerK s id k) id (k - 1)).nextChan = s.nextChan + 1
      rw [hN2, hN]
    refine ⟨?_, ?_, ?_, ?_, ?_, ?_⟩
    · rw [handlerEntryOf, hD]
      rfl
    · rw [handlerEntryOf, hD]
      rfl
    · rw [getHandlerUplink_open _ id cn2 1 s.nextChan hD]
    · rw [hDe]
    · rw [handlerEntryOf, hl3]
      rfl
    · rw [activateHandler_nilchan _ id cn2 0 hl3, hchan]

/-- C7 witness: the lifecycle at a fresh broker with id router-1 and k = 2. -/
theorem refcount_lifecycle_witness :
    (alookup (deactivateRouterK (activateRouterK NewBroker "router-1" 2) "router-1" 1).routers
        "router-1" = some ⟨1, some NewBroker.nextChan⟩ ∧
     (getRouterDownlink (deactivateRouterK (activateRouterK NewBroker "router-1" 2) "router-1" 1)
        "router-1").1 = (some NewBroker.nextChan, none) ∧
     (DeactivateRouterDownlink
        (deactivateRouterK (activateRouterK NewBroker "router-1" 2) "router-1" 1) "router-1").1
        = none ∧
     alookup ((DeactivateRouterDownlink
        (deactivateRouterK (activateRouterK NewBroker "router-1" 2) "router-1" 1)
        "router-1").2).routers "router-1" = some ⟨0, none⟩ ∧
     (ActivateRouterDownlink ((DeactivateRouterDownlink
        (deactivateRouterK (activateRouterK NewBroker "router-1" 2) "router-1" 1)
        "router-1").2) "router-1").1.1 = some (NewBroker.nextChan + 1) ∧
     NewBroker.nextChan + 1 ≠ NewBroker.nextChan) ∧
    ((handlerEntryOf (deactivateHandlerK (activateHandlerK NewBroker "router-1" 2) "router-1" 1)
        "router-1").uplink = some NewBroker.nextChan ∧
     (handlerEntryOf (deactivateHandlerK (activateHandlerK NewBroker "router-1" 2) "router-1" 1)
        "router-1").uplinkConns = 1 ∧
     (getHandlerUplink (deactivateHandlerK (activateHandlerK NewBroker "router-1" 2) "router-1" 1)
        "router-1").1 = (some NewBroker.nextChan, none) ∧
     (DeactivateHandlerUplink
        (deactivateHandlerK (activateHandlerK NewBroker "router-1" 2) "router-1" 1) "router-1").1
        = none ∧
     (handlerEntryOf ((DeactivateHandlerUplink
        (deactivateHandlerK (activateHandlerK NewBroker "router-1" 2) "router-1" 1)
        "router-1").2) "router-1").uplink = none ∧
     (ActivateHandlerUplink ((DeactivateHandlerUplink
        (deactivateHandlerK (activateHandlerK NewBroker "router-1" 2) "router-1" 1)
        "router-1").2) "router-1").1.1 = some (NewBroker.nextChan + 1)) :=
  refcount_lifecycle NewBroker "router-1" 2 none (by decide) (Or.inl rfl) (Or.inl rfl)

/-- Modelled from the spec: the uplink MAC payload fields the core touches
(the bit-level LoRaWAN codec is an external library; spec section 1). -/
structure MACPayload where
  FCnt : Nat
  FPort : Nat
  DevAddr : Nat
deriving Repr, DecidableEq

/-- Modelled from the spec: the LoRaWAN protocol configuration of a downlink
option, restricted to the downlink frame counter the core writes. -/
structure LoRaWANConfig where
  FCnt : Nat
deriving Repr, DecidableEq

/-- Modelled from the spec: the protocol configuration attached to a downlink
option (a oneof holding an optional LoRaWAN configuration). -/
structure ProtocolConfig where
  lorawan : Option LoRaWANConfig
deriving Repr, DecidableEq

/-- Modelled from the spec: the downlink option chosen upstream by the broker. -/
structure DownlinkOption where
  protocolConfig : ProtocolConfig
deriving Repr, DecidableEq

/-- Modelled from the spec: the downlink MAC payload skeleton (port, address,
frame counter) of a response template. -/
structure DownlinkMAC where
  FPort : Nat
  DevAddr : Nat
  FCnt : Nat
deriving Repr, DecidableEq

/-- Modelled from the spec: the response template (downlink message skeleton):
its MAC payload, its chosen downlink option and the marshalled raw payload. -/
structure DownlinkMessage where
  mac : Option DownlinkMAC
  downlinkOption : Option DownlinkOption
  payload : List Nat
deriving Repr, DecidableEq

/-- Go zero value new(DownlinkMessage). -/
def zeroDownlinkMessage : DownlinkMessage :=
  { mac := none, downlinkOption := none, payload := [] }

/-- Go zero value of a downlink MAC payload. -/
def zeroDownlinkMAC : DownlinkMAC := { FPort := 0, DevAddr := 0, FCnt := 0 }

/-- The deduplicated uplink message as HandleUplink sees it: device identity,
the outcome of UnmarshalPayload (an error, or the optional decoded MAC
payload), and the response-template slot. -/
structure UplinkMessage where
  appEUI : Nat
  devEUI : Nat
  unmarshalErr : Option Err
  macPayload : Option MACPayload
  responseTemplate : Option DownlinkMessage
deriving Repr, DecidableEq

/-- The per-device store record, restricted to the fields the core touches
(uplink and downlink frame counters, last-seen timestamp). -/
structure Device where
  appEUI : Nat
  devEUI : Nat
  FCntUp : Nat
  FCntDown : Nat
  LastSeen : Nat
deriving Repr, DecidableEq

/-- Observable collaborator calls made by HandleUplink, in order: the
devices.Get fetch, the handleUplinkMAC invocation with its arguments, the
deferred devices.Set commit, and the error log when that commit failed. -/
inductive Event where
  | getDevice (appEUI devEUI : Nat)
  | macCall (msg : UplinkMessage) (dev : Device)
  | setDevice (dev : Device)
  | logSetFailed (e : Err)
deriving Repr, DecidableEq

/-- The external collaborators of HandleUplink: the device store content, the
fault injected into devices.Set, the MAC-command processing step
(handleUplinkMAC, which lives outside the embedded fragment; modelled from the
spec as collaborator logic that may mutate the message and the device record
and may fail), the payload marshaller, and the current time. -/
structure NSEnv where
  store : List ((Nat × Nat) × Device)
  setErr : Option Err
  mac : UplinkMessage → Device → Option Err × UplinkMessage × Device
  marshal : DownlinkMAC → Except Err (List Nat)
  now : Nat

/-- Modelled from the spec: devices.Get per the store contract of section 6 —
the stored record, or NotFound for an unknown device (the store implementation
is outside the embedded fragment). -/
def storeGet (store : List ((Nat × Nat) × Device)) (appEUI devEUI : Nat) :
    Except Err Device :=
  match alookup store (appEUI, devEUI) with
  | some d => Except.ok d
  | none => Except.error (newErrNotFound "Device")

/-- uplink.go lines 62-71: InitResponseTemplate / InitLoRaWAN / InitDownlink,
then mirror FPort and DevAddr from the uplink MAC payload and write the
device's current FCntDown into the template MAC payload and, when a downlink
option with a LoRaWAN protocol configuration is present, into that
configuration as well. -/
def prepareDownlink (message : UplinkMessage) (uplinkMAC : MACPayload) (dev : Device) :
    UplinkMessage :=
  let t0 := message.responseTemplate.getD zeroDownlinkMessage
  let mac0 := t0.mac.getD zeroDownlinkMAC
  let mac1 : DownlinkMAC :=
    { mac0 with FPort := uplinkMAC.FPort, DevAddr := uplinkMAC.DevAddr, FCnt := dev.FCntDown }
  let t1 : DownlinkMessage := { t0 with mac := some mac1 }
  let t2 : DownlinkMessage :=
    match t1.downlinkOption with
    | none => t1
    | some dopt =>
        match dopt.protocolConfig.lorawan with
        | none => t1
        | some lw =>
            let lw2 : LoRaWANConfig := { lw with FCnt := dev.FCntDown }
            let dopt2 : DownlinkOption := { protocolConfig := { lorawan := some lw2 } }
            { t1 with downlinkOption := some dopt2 }
  { message with responseTemplate := some t2 }

/-- The outcome of one HandleUplink call: the Go return values (`ret`), the
ordered collaborator calls (`trace`), and the final value of the local
variable err after the deferred commit block ran (`localErr`).  Because the
function's results are unnamed (uplink.go line 15), the deferred assignment
err = setErr changes only localErr, never ret. -/
structure HandleUplinkRun where
  ret : Except Err UplinkMessage
  trace : List Event
  localErr : Option Err
deriving Repr

/-- uplink.go HandleUplink: decode check, device fetch, staged FCntUp/LastSeen
update, response-template preparation, MAC-command processing, payload
marshalling, unset-empty-template step, with the devices.Set commit deferred
to run on every exit path after the fetch succeeded. -/
def HandleUplink (env : NSEnv) (message : UplinkMessage) : HandleUplinkRun :=
  match message.unmarshalErr with
  | some e => { ret := Except.error e, trace := [], localErr := some e }
  | none =>
    match message.macPayload with
    | none =>
        let e := newErrInvalidArgument "Uplink" "does not contain a MAC payload"
        { ret := Except.error e, trace := [], localErr := some e }
    | some uplinkMAC =>
      match storeGet env.store message.appEUI message.devEUI with
      | Except.error e =>
          { ret := Except.error e,
            trace := [Event.getDevice message.appEUI message.devEUI],
            localErr := some e }
      | Except.ok dev0 =>
          let dev1 : Device := { dev0 with FCntUp := uplinkMAC.FCnt, LastSeen := env.now }
          let msg1 := prepareDownlink message uplinkMAC dev1
          let macRes := env.mac msg1 dev1
          let res : Except Err UplinkMessage :=
            match macRes.1 with
            | some e => Except.error e
            | none =>
                let msg2 := macRes.2.1
                let t2 := msg2.responseTemplate.getD zeroDownlinkMessage
                match env.marshal (t2.mac.getD zeroDownlinkMAC) with
                | Except.error e => Except.error e
                | Except.ok bytes =>
                    let t3 : DownlinkMessage := { t2 with payload := bytes }
                    match t3.downlinkOption with
                    | none => Except.ok { msg2 with responseTemplate := none }
                    | some _ => Except.ok { msg2 with responseTemplate := some t3 }
          { ret := res,
            trace :=
              [Event.getDevice message.appEUI message.devEUI,
               Event.macCall msg1 dev1,
               Event.setDevice macRes.2.2] ++
              (match env.setErr with
               | some e => [Event.logSetFailed e]
               | none => []),
            localErr :=
              match res with
              | Except.ok _ => env.setErr
              | Except.error e => some e }

/-- The downlink frame counter stored in a message's response-template MAC
payload, when both exist. -/
def templateMacFCnt (m : UplinkMessage) : Option Nat :=
  match m.responseTemplate with
  | none => none
  | some t =>
      match t.mac with
      | none => none
      | some dm => some dm.FCnt

/-- The downlink frame counter in the LoRaWAN protocol configuration of the
message's downlink option, when present. -/
def templateConfFCnt (m : UplinkMessage) : Option Nat :=
  match m.responseTemplate with
  | none => none
  | some t =>
      match t.downlinkOption with
      | none => none
      | some dopt =>
          match dopt.protocolConfig.lorawan with
          | none => none
          | some lw => some lw.FCnt

/-- The number of devices.Set calls recorded in a trace. -/
def setCount (t : List Event) : Nat :=
  (t.filter (fun ev =>
    match ev with
    | Event.setDevice _ => true
    | _ => false)).length

theorem prepareDownlink_macFCnt (message : UplinkMessage) (uplinkMAC : MACPayload)
    (dev : Device) :
    templateMacFCnt (prepareDownlink message uplinkMAC dev) = some dev.FCntDown := by
  rcases hrt : message.responseTemplate with _ | t
  · simp [prepareDownlink, templateMacFCnt, hrt, zeroDownlinkMessage]
  · rcases hdo : t.downlinkOption with _ | dopt
    · simp [prepareDownlink, templateMacFCnt, hrt, hdo]
    · rcases hlw : dopt.protocolConfig.lorawan with _ | lw
      · simp [prepareDownlink, templateMacFCnt, hrt, hdo, hlw]
      · simp [prepareDownlink, templateMacFCnt, hrt, hdo, hlw]

theorem prepareDownlink_confFCnt (message : UplinkMessage) (uplinkMAC : MACPayload)
    (dev : Device) :
    templateConfFCnt (prepareDownlink message uplinkMAC dev) = none ∨
    templateConfFCnt (prepareDownlink message uplinkMAC dev) = some dev.FCntDown := by
  rcases hrt : message.responseTemplate with _ | t
  · exact Or.inl (by simp [prepareDownlink, templateConfFCnt, hrt, zeroDownlinkMessage])
  · rcases hdo : t.downlinkOption with _ | dopt
    · exact Or.inl (by simp [prepareDownlink, templateConfFCnt, hrt, hdo])
    · rcases hlw : dopt.protocolConfig.lorawan with _ | lw
      · exact Or.inl (by simp [prepareDownlink, templateConfFCnt, hrt, hdo, hlw])
      · exact Or.inr (by simp [prepareDownlink, templateConfFCnt, hrt, hdo, hlw])

/-- C2: for every successful HandleUplink whose device record was fetched from
the store, the message handed to handleUplinkMAC (the macCall trace event,
i.e. the state before any MAC-command processing ran) carries a response
template whose MAC-level downlink FCnt equals the stored device's FCntDown,
whose LoRaWAN protocol-configuration FCnt (when such a configuration is
present) equals it as well, and whose working device record still carries the
stored FCntDown. -/
theorem handleUplink_template_fcnt (env : NSEnv) (message : UplinkMessage) (d : Device)
    (_hok : (HandleUplink env message).ret.isOk = true)
    (hget : storeGet env.store message.appEUI message.devEUI = Except.ok d) :
    ∀ m dv, Event.macCall m dv ∈ (HandleUplink env message).trace →
      templateMacFCnt m = some d.FCntDown ∧
      (templateConfFCnt m = none ∨ templateConfFCnt m = some d.FCntDown) ∧
      dv.FCntDown = d.FCntDown := by
  intro m dv hmem
  rcases hu : message.unmarshalErr with _ | e
  · rcases hm : message.macPayload with _ | uplinkMAC
    · simp [HandleUplink, hu, hm] at hmem
    · rcases hse : env.setErr with _ | se
      · simp [HandleUplink, hu, hm, hget, hse] at hmem
        obtain ⟨hm1, hd1⟩ := hmem
        subst hm1
        subst hd1
        exact ⟨prepareDownlink_macFCnt _ _ _, prepareDownlink_confFCnt _ _ _, rfl⟩
      · simp [HandleUplink, hu, hm, hget, hse] at hmem
        obtain ⟨hm1, hd1⟩ := hmem
        subst hm1
        subst hd1
        exact ⟨prepareDownlink_macFCnt _ _ _, prepareDownlink_confFCnt _ _ _, rfl⟩
  · simp [HandleUplink, hu] at hmem

/-- C3: whenever the device record is successfully fetched, devices.Set is
called exactly once, on every exit path: the commit is deferred, so it also
runs when MAC processing or payload marshalling fails afterwards. -/
theorem handleUplink_commits_once (env : NSEnv) (message : UplinkMessage)
    (uplinkMAC : MACPayload) (d : Device)
    (hu : message.unmarshalErr = none)
    (hm : message.macPayload = some uplinkMAC)
    (hget : storeGet env.store message.appEUI message.devEUI = Except.ok d) :
    setCount (HandleUplink env message).trace = 1 := by
  rcases hse : env.setErr with _ | se
  · simp [HandleUplink, hu, hm, hget, hse, setCount]
  · simp [HandleUplink, hu, hm, hget, hse, setCount]

/-- C5: an uplink whose decoded content carries no MAC payload fails with an
InvalidArgument error, and neither devices.Get nor devices.Set is reached (the
collaborator trace is empty). -/
theorem handleUplink_no_mac_payload (env : NSEnv) (message : UplinkMessage)
    (hu : message.unmarshalErr = none)
    (hm : message.macPayload = none) :
    (HandleUplink env message).ret =
      Except.error (newErrInvalidArgument "Uplink" "does not contain a MAC payload") ∧
    (HandleUplink env message).trace = [] := by
  constructor
  · simp [HandleUplink, hu, hm]
  · simp [HandleUplink, hu, hm]

/-- A sample device with downlink frame counter 5, as in the spec scenario. -/
def sampleDevice : Device :=
  { appEUI := 1, devEUI := 2, FCntUp := 0, FCntDown := 5, LastSeen := 0 }

/-- A sample uplink for that device, carrying a MAC payload and a downlink
option that holds a LoRaWAN protocol configuration. -/
def sampleUplink : UplinkMessage :=
  { appEUI := 1, devEUI := 2, unmarshalErr := none,
    macPayload := some { FCnt := 7, FPort := 3, DevAddr := 9 },
    responseTemplate := some
      { mac := none,
        downlinkOption := some { protocolConfig := { lorawan := some { FCnt := 0 } } },
        payload := [] } }

/-- A store failure injected into devices.Set. -/
def sampleSetErr : Err := { kind := ErrKind.upstream, msg := "store write failed" }

/-- Collaborators that all succeed: the store holds the sample device, Set
succeeds, MAC processing leaves message and device unchanged, and marshalling
yields an empty payload. -/
def benignEnv : NSEnv :=
  { store := [((1, 2), sampleDevice)], setErr := none,
    mac := fun m dv => (none, m, dv), marshal := fun _ => Except.ok [], now := 100 }

/-- The working device record staged for the sample uplink. -/
def sampleDev1 : Device := { sampleDevice with FCntUp := 7, LastSeen := 100 }

/-- The message handed to MAC processing for the sample uplink. -/
def sampleMsg1 : UplinkMessage :=
  prepareDownlink sampleUplink { FCnt := 7, FPort := 3, DevAddr := 9 } sampleDev1

/-- C2 witness: the device stored with downlink counter 5 yields a response
template whose downlink counter, as handed to MAC processing, equals 5. -/
theorem handleUplink_template_fcnt_witness :
    templateMacFCnt sampleMsg1 = some sampleDevice.FCntDown ∧
    (templateConfFCnt sampleMsg1 = none ∨
     templateConfFCnt sampleMsg1 = some sampleDevice.FCntDown) ∧
    sampleDev1.FCntDown = sampleDevice.FCntDown :=
  handleUplink_template_fcnt benignEnv sampleUplink sampleDevice (by decide) rfl
    sampleMsg1 sampleDev1 (by decide)

/-- C3 witness: the sample uplink commits exactly one devices.Set call. -/
theorem handleUplink_commits_once_witness :
    setCount (HandleUplink benignEnv sampleUplink).trace = 1 :=
  handleUplink_commits_once benignEnv sampleUplink
    { FCnt := 7, FPort := 3, DevAddr := 9 } sampleDevice rfl rfl rfl

/-- C5 witness: the sample uplink with its MAC payload removed. -/
theorem handleUplink_no_mac_payload_witness :
    (HandleUplink benignEnv { sampleUplink with macPayload := none }).ret =
      Except.error (newErrInvalidArgument "Uplink" "does not contain a MAC payload") ∧
    (HandleUplink benignEnv { sampleUplink with macPayload := none }).trace = [] :=
  handleUplink_no_mac_payload benignEnv { sampleUplink with macPayload := none } rfl rfl

/-- C4: the claim fails on the code.  HandleUplink's results are unnamed
(uplink.go line 15), so the deferred assignment err = setErr can never reach
the caller: at an input where every processing step succeeds but devices.Set
fails, the deferred block records the Set error in the local err variable, yet
the function still returns with a nil error.  An earlier MAC-processing error,
by contrast, is returned unchanged (the first error wins). -/
theorem handleUplink_set_failure_swallowed :
    (HandleUplink { benignEnv with setErr := some sampleSetErr } sampleUplink).localErr
      = some sampleSetErr ∧
    (HandleUplink { benignEnv with setErr := some sampleSetErr } sampleUplink).ret.isOk
      = true ∧
    (HandleUplink
        { benignEnv with setErr := some sampleSetErr,
                         mac := fun m dv => (some (newErrInternal "mac failed"), m, dv) }
        sampleUplink).ret
      = Except.error (newErrInternal "mac failed") :=
  ⟨rfl, rfl, rfl⟩

end TTN
